import Mathlib

/-!
# Verification of the YABQOLA Blender add-on against its specification

Shallow embedding of the add-on's pure logic (keyframe shifting, f-curve
gathering, noise randomization bounds, object flipping, motion-hold keyframe
duplication, the quick-snap modal state machine, auto-blink loop termination
and scene-cleanup target gathering), with theorems settling the spec claims.

Floating-point scalars of the host (frame times, values, scales) are modelled
as rationals; host integers as `Int`; host booleans as `Bool`.  Host-owned
collections (keyframe point lists, modifier stacks, scene object lists) are
modelled as Lean lists of structures carrying exactly the fields the add-on
reads or writes.
-/

namespace YABQOLA

/-- A 2-D point of the host (`mathutils.Vector` slice used by keyframes). -/
structure Vec2 where
  x : ℚ
  y : ℚ
  deriving DecidableEq, Repr

/-- A keyframe point of an f-curve, with the fields the add-on touches:
control-point coordinate, the two handles, the selection flag,
interpolation mode and handle types. -/
structure KeyframePoint where
  co : Vec2
  handle_left : Vec2
  handle_right : Vec2
  select_control_point : Bool
  interpolation : String
  handle_left_type : String
  handle_right_type : String
  deriving DecidableEq, Repr

/-- The in-place mutation performed on one keyframe point by the body of the
loop in `shift_keyframes` (`animation_qol/utils/animation.py`, lines 111-113):
the x coordinate of the control point and of both handles moves by the delta. -/
def shiftPoint (kp : KeyframePoint) (frame_delta : ℚ) : KeyframePoint :=
  { kp with
      co := { kp.co with x := kp.co.x + frame_delta }
      handle_left := { kp.handle_left with x := kp.handle_left.x + frame_delta }
      handle_right := { kp.handle_right with x := kp.handle_right.x + frame_delta } }

/-- Embeds `shift_keyframes` (`animation_qol/utils/animation.py`, lines 89-119):
walks the keyframe points of a curve; a point is skipped when
`only_selected` is on and its control point is not selected, otherwise it is
shifted by `frame_delta` and counted.  Returns the new point list together
with the number of points moved (`fcurve.update()` does not alter points). -/
def shift_keyframes : List KeyframePoint → ℚ → Bool → List KeyframePoint × Nat
  | [], _, _ => ([], 0)
  | kp :: rest, frame_delta, only_selected =>
    let r := shift_keyframes rest frame_delta only_selected
    if only_selected && !kp.select_control_point then
      (kp :: r.1, r.2)
    else
      (shiftPoint kp frame_delta :: r.1, r.2 + 1)

/-- Embeds `sorted_range` (`animation_qol/utils/animation.py`, lines 122-125). -/
def sorted_range (value_a value_b : ℚ) : ℚ × ℚ :=
  if value_a ≤ value_b then (value_a, value_b) else (value_b, value_a)

theorem shift_keyframes_points_eq_map (pts : List KeyframePoint) (d : ℚ) (sel : Bool) :
    (shift_keyframes pts d sel).1 =
      pts.map (fun kp => if sel && !kp.select_control_point then kp else shiftPoint kp d) := by
  induction pts with
  | nil => rfl
  | cons kp rest ih =>
    simp only [shift_keyframes, List.map_cons]
    by_cases h : (sel && !kp.select_control_point) = true
    · simp [h, ih]
    · simp [h, ih]

theorem shift_keyframes_length (pts : List KeyframePoint) (d : ℚ) (sel : Bool) :
    (shift_keyframes pts d sel).1.length = pts.length := by
  rw [shift_keyframes_points_eq_map]
  exact List.length_map _ _

theorem shift_keyframes_count (pts : List KeyframePoint) (d : ℚ) :
    (shift_keyframes pts d true).2 =
      (pts.filter (fun kp => kp.select_control_point)).length := by
  induction pts with
  | nil => rfl
  | cons kp rest ih =>
    simp only [shift_keyframes]
    by_cases h : kp.select_control_point = true
    · simp [h, List.filter, ih]
    · simp only [Bool.not_eq_true] at h
      simp [h, List.filter, ih]

/-- Claim C1: With only-selected mode enabled and any (in particular non-zero)
frame delta, `shift_keyframes` adds exactly the delta to the x-coordinate of
every keyframe point whose control point is selected (value, selection flag
untouched), leaves every point whose control point is not selected completely
unchanged, and returns the number of points moved, which is the number of
selected points. -/
theorem shift_keyframes_spec (pts : List KeyframePoint) (frame_delta : ℚ)
    (hnz : frame_delta ≠ 0) :
    let r := shift_keyframes pts frame_delta true
    r.1.length = pts.length ∧
    (∀ (i : ℕ) (kp : KeyframePoint), pts[i]? = some kp →
      kp.select_control_point = true →
      r.1[i]? = some { kp with
        co := { kp.co with x := kp.co.x + frame_delta }
        handle_left := { kp.handle_left with x := kp.handle_left.x + frame_delta }
        handle_right := { kp.handle_right with x := kp.handle_right.x + frame_delta } }) ∧
    (∀ (i : ℕ) (kp : KeyframePoint), pts[i]? = some kp →
      kp.select_control_point = false →
      r.1[i]? = some kp) ∧
    r.2 = (pts.filter (fun kp => kp.select_control_point)).length := by
  refine ⟨shift_keyframes_length pts frame_delta true, ?_, ?_, shift_keyframes_count pts frame_delta⟩
  · intro i kp h hsel
    rw [shift_keyframes_points_eq_map, List.getElem?_map, h]
    simp [hsel, shiftPoint]
  · intro i kp h hsel
    rw [shift_keyframes_points_eq_map, List.getElem?_map, h]
    simp [hsel]

/-- Witness for C1 on a concrete two-point curve with delta 5: the selected
point moves from frame 1 to frame 6, the unselected point stays at frame 2,
and exactly one point is reported moved. -/
theorem shift_keyframes_spec_witness :
    (5 : ℚ) ≠ 0 ∧
    (let p1 : KeyframePoint :=
      ⟨⟨1, 10⟩, ⟨0, 10⟩, ⟨2, 10⟩, true, "BEZIER", "AUTO_CLAMPED", "AUTO_CLAMPED"⟩
     let p2 : KeyframePoint :=
      ⟨⟨2, 20⟩, ⟨1, 20⟩, ⟨3, 20⟩, false, "BEZIER", "AUTO_CLAMPED", "AUTO_CLAMPED"⟩
     let r := shift_keyframes [p1, p2] 5 true
     r.1.length = 2 ∧
     r.1[0]? = some ⟨⟨6, 10⟩, ⟨5, 10⟩, ⟨7, 10⟩, true, "BEZIER", "AUTO_CLAMPED", "AUTO_CLAMPED"⟩ ∧
     r.1[1]? = some p2 ∧ r.2 = 1) := by
  constructor
  · decide
  · have h := shift_keyframes_spec
      [⟨⟨1, 10⟩, ⟨0, 10⟩, ⟨2, 10⟩, true, "BEZIER", "AUTO_CLAMPED", "AUTO_CLAMPED"⟩,
       ⟨⟨2, 20⟩, ⟨1, 20⟩, ⟨3, 20⟩, false, "BEZIER", "AUTO_CLAMPED", "AUTO_CLAMPED"⟩]
      5 (by norm_num)
    obtain ⟨hlen, hsel, hunsel, hcount⟩ := h
    refine ⟨hlen, ?_, ?_, by simpa using hcount⟩
    · have h0 := hsel 0 _ rfl rfl
      norm_num at h0
      exact h0
    · simpa using hunsel 1 _ rfl rfl

/-! ## F-curves and `gather_target_fcurves` -/

/-- A noise f-modifier on an f-curve, with the fields the randomizer writes
(`type` distinguishes noise modifiers from others in the stack). -/
structure NoiseModifier where
  type : String
  phase : ℚ
  offset : ℚ
  strength : ℚ
  scale : ℚ
  deriving DecidableEq, Repr

/-- An f-curve with the fields the add-on reads: the owning datablock pointer
(`id_data.as_pointer()`, absent for orphan curves), the Python object identity
used as the fallback key, path/index identifying the animated property, the
lock flag, names used by the alphabetical sort, keyframe points and the
modifier stack. -/
structure FCurve where
  id_data : Option Nat
  py_id : Nat
  data_path : String
  array_index : Int
  lock : Bool
  id_name : String
  group_name : String
  points : List KeyframePoint
  modifiers : List NoiseModifier
  deriving DecidableEq, Repr

/-- Embeds `_fcurve_key` (`animation_qol/utils/animation.py`, lines 18-21): the
dedup key is the owner datablock pointer (falling back to the Python id of
the curve object), the data path and the array index. -/
def fcurveKey (fc : FCurve) : Nat × String × Int :=
  (fc.id_data.getD fc.py_id, fc.data_path, fc.array_index)

/-- An object as seen by `iter_fcurves_for_object`: the f-curves of its
action (empty when it has no animation data or no action) and the f-curves
of its shape-key animation (empty when absent). -/
structure AnimObject where
  action_fcurves : List FCurve
  shape_key_fcurves : List FCurve
  deriving DecidableEq, Repr

/-- Embeds `iter_fcurves_for_object` (`animation_qol/utils/animation.py`,
lines 24-42): action curves first, then shape-key curves when requested. -/
def iter_fcurves_for_object (obj : AnimObject) (include_shape_keys : Bool) :
    List FCurve :=
  obj.action_fcurves ++ (if include_shape_keys then obj.shape_key_fcurves else [])

/-- The context fields `gather_target_fcurves` reads. -/
structure GatherCtx where
  selected_editable_fcurves : List FCurve
  selected_objects : List AnimObject
  active_object : Option AnimObject
  deriving DecidableEq, Repr

/-- One iteration of the gathering loops in `gather_target_fcurves`
(`animation_qol/utils/animation.py`, lines 58-65 and 77-84): skip locked
curves, skip curves whose key was already seen, otherwise append the curve
and record its key.  The accumulator is the `(result, seen)` pair. -/
def gatherStep (acc : List FCurve × List (Nat × String × Int)) (fc : FCurve) :
    List FCurve × List (Nat × String × Int) :=
  if fc.lock then acc
  else if fcurveKey fc ∈ acc.2 then acc
  else (acc.1 ++ [fc], fcurveKey fc :: acc.2)

/-- Embeds `gather_target_fcurves` (`animation_qol/utils/animation.py`,
lines 45-86): first pass over `selected_editable_fcurves`; early return when
that produced curves and only-selected mode is on; otherwise a second pass
over the selected objects (with the active object appended when not already
selected), sharing the same seen-set. -/
def gather_target_fcurves (ctx : GatherCtx)
    (only_selected_curves include_shape_keys : Bool) : List FCurve :=
  let s1 := ctx.selected_editable_fcurves.foldl gatherStep ([], [])
  if s1.1 ≠ [] ∧ only_selected_curves then s1.1
  else
    let objects := ctx.selected_objects ++
      (match ctx.active_object with
       | some a => if a ∈ ctx.selected_objects then [] else [a]
       | none => [])
    let curves := objects.foldl
      (fun l obj => l ++ iter_fcurves_for_object obj include_shape_keys) []
    (curves.foldl gatherStep s1).1

/-- The invariant the gathering loops maintain: no gathered curve is locked,
the gathered keys are pairwise distinct, and every gathered key has been
recorded in the seen-set. -/
def GatherInv (acc : List FCurve × List (Nat × String × Int)) : Prop :=
  (∀ fc ∈ acc.1, fc.lock = false) ∧
  (acc.1.map fcurveKey).Nodup ∧
  (∀ k ∈ acc.1.map fcurveKey, k ∈ acc.2)

theorem gatherStep_inv (acc : List FCurve × List (Nat × String × Int))
    (fc : FCurve) (h : GatherInv acc) : GatherInv (gatherStep acc fc) := by
  obtain ⟨hlock, hnodup, hseen⟩ := h
  by_cases hl : fc.lock
  · simpa [gatherStep, hl] using ⟨hlock, hnodup, hseen⟩
  · by_cases hk : fcurveKey fc ∈ acc.2
    · simpa [gatherStep, hl, hk] using ⟨hlock, hnodup, hseen⟩
    · have hstep : gatherStep acc fc = (acc.1 ++ [fc], fcurveKey fc :: acc.2) := by
        simp [gatherStep, hl, hk]
      rw [hstep]
      refine ⟨?_, ?_, ?_⟩
      · intro g hg
        rcases List.mem_append.mp hg with hg | hg
        · exact hlock g hg
        · simp only [List.mem_singleton] at hg
          subst hg
          simpa using hl
      · rw [List.map_append]
        refine List.Nodup.append hnodup (by simp) ?_
        intro k hk1 hk2
        simp only [List.map_cons, List.map_nil, List.mem_singleton] at hk2
        subst hk2
        exact hk (hseen _ hk1)
      · intro k hkmem
        rw [List.map_append] at hkmem
        rcases List.mem_append.mp hkmem with hm | hm
        · exact List.mem_cons_of_mem _ (hseen _ hm)
        · simp only [List.map_cons, List.map_nil, List.mem_singleton] at hm
          subst hm
          exact List.mem_cons_self _ _

theorem gatherFold_inv (l : List FCurve)
    (acc : List FCurve × List (Nat × String × Int)) (h : GatherInv acc) :
    GatherInv (l.foldl gatherStep acc) := by
  induction l generalizing acc with
  | nil => exact h
  | cons fc rest ih => exact ih _ (gatherStep_inv acc fc h)

/-- Claim C9: For every context and every combination of the
`only_selected_curves` and `include_shape_keys` flags, the list returned by
`gather_target_fcurves` contains no locked f-curve, and no f-curve twice:
the dedup keys (owner pointer, data path, array index) of its entries are
pairwise distinct. -/
theorem gather_target_fcurves_spec (ctx : GatherCtx)
    (only_selected_curves include_shape_keys : Bool) :
    (∀ fc ∈ gather_target_fcurves ctx only_selected_curves include_shape_keys,
      fc.lock = false) ∧
    ((gather_target_fcurves ctx only_selected_curves include_shape_keys).map
      fcurveKey).Nodup := by
  have hbase : GatherInv ([], []) := by
    refine ⟨?_, ?_, ?_⟩ <;> simp
  have h1 : GatherInv (ctx.selected_editable_fcurves.foldl gatherStep ([], [])) :=
    gatherFold_inv _ _ hbase
  unfold gather_target_fcurves
  dsimp only
  split
  · exact ⟨h1.1, h1.2.1⟩
  · exact ⟨(gatherFold_inv _ _ h1).1, (gatherFold_inv _ _ h1).2.1⟩

/-- Witness for C9 on a concrete context containing a locked curve and a
duplicate of the same underlying curve: the gathered list is lock-free and
key-distinct. -/
theorem gather_target_fcurves_spec_witness :
    (∀ fc ∈ gather_target_fcurves
        ⟨[⟨some 7, 1, "location", 0, false, "Cube", "", [], []⟩,
          ⟨some 7, 2, "location", 0, false, "Cube", "", [], []⟩,
          ⟨some 7, 3, "location", 1, true, "Cube", "", [], []⟩],
         [], none⟩ true true,
      fc.lock = false) ∧
    ((gather_target_fcurves
        ⟨[⟨some 7, 1, "location", 0, false, "Cube", "", [], []⟩,
          ⟨some 7, 2, "location", 0, false, "Cube", "", [], []⟩,
          ⟨some 7, 3, "location", 1, true, "Cube", "", [], []⟩],
         [], none⟩ true true).map fcurveKey).Nodup :=
  gather_target_fcurves_spec _ true true

/-! ## Noise randomizer bounds -/

/-- The noise-randomizer fields of `AnimationQOLSceneSettings`
(`properties.py`, lines 50-116). -/
structure NoiseSettings where
  noise_phase_min : ℚ
  noise_phase_max : ℚ
  noise_offset_min : ℚ
  noise_offset_max : ℚ
  noise_strength_min : ℚ
  noise_strength_max : ℚ
  noise_scale_min : ℚ
  noise_scale_max : ℚ
  noise_seed : Int
  noise_create_missing : Bool
  deriving DecidableEq, Repr

/-- Model of Python's `random.uniform(a, b) = a + (b - a) * random()`, with
the draw of `random()` made explicit as `t ∈ [0, 1]`. -/
def uniform (a b t : ℚ) : ℚ := a + (b - a) * t

/-- The per-modifier writes of the randomizer loop
(`YABQOLA/operators/noise_randomizer.py`, lines 77-81), after the bounds were
normalized with `sorted_range` (lines 48-53).  The four draws of
`random.uniform` are `t 0` … `t 3`. -/
def randomizeNoiseModifier (s : NoiseSettings) (t : Fin 4 → ℚ)
    (m : NoiseModifier) : NoiseModifier :=
  let pB := sorted_range s.noise_phase_min s.noise_phase_max
  let oB := sorted_range s.noise_offset_min s.noise_offset_max
  let sB := sorted_range s.noise_strength_min s.noise_strength_max
  let cB := sorted_range s.noise_scale_min s.noise_scale_max
  { m with
      phase := uniform pB.1 pB.2 (t 0)
      offset := uniform oB.1 oB.2 (t 1)
      strength := uniform sB.1 sB.2 (t 2)
      scale := max (1 / 1000) (uniform cB.1 cB.2 (t 3)) }

theorem sorted_range_eq (a b : ℚ) : sorted_range a b = (min a b, max a b) := by
  unfold sorted_range
  by_cases h : a ≤ b
  · simp [h, min_eq_left h, max_eq_right h]
  · have hba : b ≤ a := le_of_not_le h
    simp [h, min_eq_right hba, max_eq_left hba]

theorem uniform_mem (a b t : ℚ) (hab : a ≤ b) (h0 : 0 ≤ t) (h1 : t ≤ 1) :
    a ≤ uniform a b t ∧ uniform a b t ≤ b := by
  unfold uniform
  constructor
  · nlinarith
  · nlinarith

/-- Claim C4: `sorted_range` always returns an ordered pair (first component
`min`, second `max`, never rejecting a reversed range), and for every noise
modifier the randomizer touches, the written phase, offset, strength and
scale each lie within the closed interval `[min(a,b), max(a,b)]` of the
corresponding configured bounds; the written scale is additionally at least
`0.001` (the scale bounds themselves are at least `0.001`, the `min` of
their `FloatProperty` declarations). -/
theorem noise_randomizer_bounds (s : NoiseSettings) (t : Fin 4 → ℚ)
    (m : NoiseModifier)
    (ht : ∀ i : Fin 4, 0 ≤ t i ∧ t i ≤ 1)
    (hscale : 1 / 1000 ≤ s.noise_scale_min ∧ 1 / 1000 ≤ s.noise_scale_max) :
    (∀ a b : ℚ, (sorted_range a b).1 ≤ (sorted_range a b).2 ∧
      (sorted_range a b).1 = min a b ∧ (sorted_range a b).2 = max a b) ∧
    (let r := randomizeNoiseModifier s t m
     (min s.noise_phase_min s.noise_phase_max ≤ r.phase ∧
      r.phase ≤ max s.noise_phase_min s.noise_phase_max) ∧
     (min s.noise_offset_min s.noise_offset_max ≤ r.offset ∧
      r.offset ≤ max s.noise_offset_min s.noise_offset_max) ∧
     (min s.noise_strength_min s.noise_strength_max ≤ r.strength ∧
      r.strength ≤ max s.noise_strength_min s.noise_strength_max) ∧
     (min s.noise_scale_min s.noise_scale_max ≤ r.scale ∧
      r.scale ≤ max s.noise_scale_min s.noise_scale_max) ∧
     1 / 1000 ≤ r.scale) := by
  constructor
  · intro a b
    rw [sorted_range_eq]
    exact ⟨min_le_max, rfl, rfl⟩
  · have hphase := uniform_mem (min s.noise_phase_min s.noise_phase_max)
      (max s.noise_phase_min s.noise_phase_max) (t 0) min_le_max (ht 0).1 (ht 0).2
    have hoffset := uniform_mem (min s.noise_offset_min s.noise_offset_max)
      (max s.noise_offset_min s.noise_offset_max) (t 1) min_le_max (ht 1).1 (ht 1).2
    have hstrength := uniform_mem (min s.noise_strength_min s.noise_strength_max)
      (max s.noise_strength_min s.noise_strength_max) (t 2) min_le_max (ht 2).1 (ht 2).2
    have hsc := uniform_mem (min s.noise_scale_min s.noise_scale_max)
      (max s.noise_scale_min s.noise_scale_max) (t 3) min_le_max (ht 3).1 (ht 3).2
    have hminsc : 1 / 1000 ≤ min s.noise_scale_min s.noise_scale_max :=
      le_min hscale.1 hscale.2
    have heps : (1 : ℚ) / 1000 ≤ uniform (min s.noise_scale_min s.noise_scale_max)
        (max s.noise_scale_min s.noise_scale_max) (t 3) :=
      le_trans hminsc hsc.1
    have hmaxeq : max ((1 : ℚ) / 1000)
        (uniform (min s.noise_scale_min s.noise_scale_max)
          (max s.noise_scale_min s.noise_scale_max) (t 3)) =
        uniform (min s.noise_scale_min s.noise_scale_max)
          (max s.noise_scale_min s.noise_scale_max) (t 3) :=
      max_eq_right heps
    refine ⟨?_, ?_, ?_, ?_, ?_⟩ <;>
      simp only [randomizeNoiseModifier, sorted_range_eq]
    · exact hphase
    · exact hoffset
    · exact hstrength
    · rw [hmaxeq]
      exact hsc
    · rw [hmaxeq]
      exact heps

/-- Witness for C4 at the default configuration (phase `[0, 6.283]`,
offset `[-5, 5]`, strength `[0.1, 1]`, scale `[3, 18]`) with every draw at
`1/2`. -/
theorem noise_randomizer_bounds_witness :
    (∀ i : Fin 4, 0 ≤ ((fun _ => (1 : ℚ) / 2) i : ℚ) ∧
      ((fun _ => (1 : ℚ) / 2) i : ℚ) ≤ 1) ∧
    (1 / 1000 ≤ (3 : ℚ) ∧ 1 / 1000 ≤ (18 : ℚ)) ∧
    (let s : NoiseSettings := ⟨0, 6283 / 1000, -5, 5, 1 / 10, 1, 3, 18, 0, true⟩
     let r := randomizeNoiseModifier s (fun _ => 1 / 2) ⟨"NOISE", 0, 0, 0, 0⟩
     min s.noise_scale_min s.noise_scale_max ≤ r.scale ∧
     r.scale ≤ max s.noise_scale_min s.noise_scale_max ∧
     1 / 1000 ≤ r.scale) := by
  refine ⟨by intro i; norm_num, by norm_num, ?_⟩
  have h := noise_randomizer_bounds ⟨0, 6283 / 1000, -5, 5, 1 / 10, 1, 3, 18, 0, true⟩
    (fun _ => 1 / 2) ⟨"NOISE", 0, 0, 0, 0⟩
    (by intro i; norm_num) (by norm_num)
  exact ⟨h.2.2.2.2.1.1, h.2.2.2.2.1.2, h.2.2.2.2.2⟩

/-! ## Object flip -/

/-- A local scale vector. -/
structure Scale3 where
  sx : ℚ
  sy : ℚ
  sz : ℚ
  deriving DecidableEq, Repr

/-- Component read by axis index (`obj.scale[axis_index]`). -/
def Scale3.axisGet (s : Scale3) : Fin 3 → ℚ
  | 0 => s.sx
  | 1 => s.sy
  | 2 => s.sz

/-- Component write by axis index (`new_scale[axis_index] = v`). -/
def Scale3.axisSet (s : Scale3) : Fin 3 → ℚ → Scale3
  | 0, v => { s with sx := v }
  | 1, v => { s with sy := v }
  | 2, v => { s with sz := v }

/-- An object as seen by `object_flip`: whether it comes from a linked
library (`obj.library` truthy), whether it is hidden (`obj.hide_get()`),
and its local scale. -/
structure FlipObject where
  library : Bool
  hidden : Bool
  scale : Scale3
  deriving DecidableEq, Repr

/-- Embeds `object_flip` (`animation_qol/utils/objects.py`, lines 107-115): a
linked or hidden object is returned untouched; otherwise the scale component
of the chosen axis is multiplied by `-1`. -/
def object_flip (obj : FlipObject) (axis_index : Fin 3) : FlipObject :=
  if obj.library || obj.hidden then obj
  else
    { obj with
        scale := obj.scale.axisSet axis_index (obj.scale.axisGet axis_index * -1) }

/-- Claim C5: For every non-linked, non-hidden object and every axis index,
`object_flip` multiplies the scale component of the chosen axis by `-1` and
leaves the other two components unchanged; applying it twice with the same
axis restores the object exactly (involution); a linked or hidden object is
not changed at all. -/
theorem object_flip_spec (obj : FlipObject) (axis_index : Fin 3) :
    (obj.library = false → obj.hidden = false →
      ((object_flip obj axis_index).scale.axisGet axis_index =
        obj.scale.axisGet axis_index * -1 ∧
       (∀ j : Fin 3, j ≠ axis_index →
         (object_flip obj axis_index).scale.axisGet j = obj.scale.axisGet j) ∧
       object_flip (object_flip obj axis_index) axis_index = obj)) ∧
    (obj.library = true ∨ obj.hidden = true → object_flip obj axis_index = obj) := by
  constructor
  · intro hlib hhide
    obtain ⟨lib, hid, ⟨x, y, z⟩⟩ := obj
    simp only at hlib hhide
    subst hlib hhide
    refine ⟨?_, ?_, ?_⟩
    · fin_cases axis_index <;>
        simp [object_flip, Scale3.axisSet, Scale3.axisGet]
    · intro j hj
      fin_cases axis_index <;> fin_cases j <;>
        simp_all [object_flip, Scale3.axisSet, Scale3.axisGet]
    · fin_cases axis_index <;>
        simp [object_flip, Scale3.axisSet, Scale3.axisGet]
  · intro h
    rcases h with h | h <;> simp [object_flip, h]

/-- Witness for C5: flipping a visible, local object with scale `(2, 3, 4)`
on axis `1` negates the y component, keeps x and z, and flipping again
restores the object; a linked object is untouched. -/
theorem object_flip_spec_witness :
    ((false : Bool) = false ∧ (false : Bool) = false ∧
      (object_flip ⟨false, false, ⟨2, 3, 4⟩⟩ 1).scale.axisGet 1 = 3 * -1 ∧
      object_flip (object_flip ⟨false, false, ⟨2, 3, 4⟩⟩ 1) 1 =
        ⟨false, false, ⟨2, 3, 4⟩⟩) ∧
    ((true : Bool) = true ∨ (false : Bool) = true) ∧
    object_flip ⟨true, false, ⟨2, 3, 4⟩⟩ 0 = ⟨true, false, ⟨2, 3, 4⟩⟩ := by
  have h1 := object_flip_spec ⟨false, false, ⟨2, 3, 4⟩⟩ 1
  have h2 := object_flip_spec ⟨true, false, ⟨2, 3, 4⟩⟩ 0
  refine ⟨⟨rfl, rfl, ?_, (h1.1 rfl rfl).2.2⟩, Or.inl rfl, h2.2 (Or.inl rfl)⟩
  exact (h1.1 rfl rfl).1

/-! ## Motion hold -/

/-- Embeds `_keyframe_exists` (`operators/motion_hold.py`, lines 25-27): some
keyframe of the curve sits within `1e-4` frames of the given frame. -/
def keyframe_exists (pts : List KeyframePoint) (frame : ℚ) : Bool :=
  pts.any (fun kp => |kp.co.x - frame| ≤ 1 / 10000)

/-- Model of the host API `fcurve.keyframe_points.insert(frame, value)`: the
returned fresh keyframe carries the requested coordinates; its other fields
start at host defaults and are overwritten by `_duplicate_keyframe` before
the curve is used. -/
def hostInsertKeyframe (frame value : ℚ) : KeyframePoint :=
  { co := ⟨frame, value⟩
    handle_left := ⟨frame, value⟩
    handle_right := ⟨frame, value⟩
    select_control_point := false
    interpolation := "BEZIER"
    handle_left_type := "FREE"
    handle_right_type := "FREE" }

/-- Embeds `_duplicate_keyframe` (`operators/motion_hold.py`, lines 30-64): skip
when a keyframe already exists within `1e-4` of the target frame, otherwise
insert a key at `source.co.x + frame_delta` carrying the source value, select
it, set its interpolation, then fix up its handles per the three branches. -/
def duplicate_keyframe (pts : List KeyframePoint) (source : KeyframePoint)
    (frame_delta : ℚ) (interpolation : String) (inherit_handles : Bool) :
    List KeyframePoint :=
  let new_frame := source.co.x + frame_delta
  if keyframe_exists pts new_frame then pts
  else
    let k1 := { hostInsertKeyframe new_frame source.co.y with
                  interpolation := interpolation, select_control_point := true }
    let k2 :=
      if inherit_handles && (source.interpolation == "BEZIER") then
        let dx := source.handle_right.x - source.co.x
        let dy := source.handle_right.y - source.co.y
        { k1 with
            handle_left := ⟨k1.co.x - dx, k1.co.y - dy⟩
            handle_right := ⟨k1.co.x + 1 / 1000, k1.co.y⟩
            handle_left_type := source.handle_right_type
            handle_right_type := "AUTO_CLAMPED" }
      else if interpolation == "CONSTANT" then
        { k1 with
            handle_left_type := "FREE"
            handle_right_type := "FREE"
            handle_left := ⟨k1.co.x - 1 / 10, k1.co.y⟩
            handle_right := ⟨k1.co.x + 1 / 10, k1.co.y⟩ }
      else
        { k1 with
            handle_left_type := "AUTO_CLAMPED"
            handle_right_type := "AUTO_CLAMPED" }
    pts ++ [k2]

/-- Claim C6: With the effective offset `max 1 hold_frame_count`
(`operators/motion_hold.py`, line 82), duplicating a source keyframe inserts
exactly one new keyframe at the source frame plus that offset, carrying the
source value — except when some keyframe already lies within `1e-4` frames
of the target frame, in which case the curve is left unchanged. -/
theorem duplicate_keyframe_spec (pts : List KeyframePoint)
    (source : KeyframePoint) (hold_frame_count : Int) (interpolation : String)
    (inherit_handles : Bool) (frame_offset : ℚ)
    (hfo : frame_offset = ((max 1 hold_frame_count : Int) : ℚ)) :
    (keyframe_exists pts (source.co.x + frame_offset) = true →
      duplicate_keyframe pts source frame_offset interpolation inherit_handles = pts) ∧
    (keyframe_exists pts (source.co.x + frame_offset) = false →
      ∃ kp, duplicate_keyframe pts source frame_offset interpolation inherit_handles
          = pts ++ [kp] ∧
        kp.co.x = source.co.x + frame_offset ∧ kp.co.y = source.co.y) := by
  clear hfo
  constructor
  · intro hex
    simp only [duplicate_keyframe, hex, if_true]
  · intro hex
    simp only [duplicate_keyframe, hex, Bool.false_eq_true, if_false]
    refine ⟨_, rfl, ?_, ?_⟩ <;>
      by_cases h1 : (inherit_handles && (source.interpolation == "BEZIER")) = true <;>
      by_cases h2 : (interpolation == "CONSTANT") = true <;>
      simp [h1, h2, hostInsertKeyframe]

/-- Witness for C6 with `hold_frame_count = 6` on a one-key curve: the
duplicate lands at frame `10 + 6` with the source value `5`; on a curve that
already has a key within `1e-4` of frame `16` nothing is inserted. -/
theorem duplicate_keyframe_spec_witness :
    (6 : ℚ) = ((max 1 (6 : Int) : Int) : ℚ) ∧
    (let src : KeyframePoint :=
      ⟨⟨10, 5⟩, ⟨9, 5⟩, ⟨11, 5⟩, true, "BEZIER", "AUTO_CLAMPED", "AUTO_CLAMPED"⟩
     keyframe_exists [src] (src.co.x + 6) = false ∧
     ∃ kp, duplicate_keyframe [src] src 6 "BEZIER" true = [src] ++ [kp] ∧
        kp.co.x = src.co.x + 6 ∧ kp.co.y = src.co.y) ∧
    (let src : KeyframePoint :=
      ⟨⟨10, 5⟩, ⟨9, 5⟩, ⟨11, 5⟩, true, "BEZIER", "AUTO_CLAMPED", "AUTO_CLAMPED"⟩
     let blocker : KeyframePoint :=
      ⟨⟨16, 7⟩, ⟨15, 7⟩, ⟨17, 7⟩, false, "BEZIER", "AUTO_CLAMPED", "AUTO_CLAMPED"⟩
     keyframe_exists [src, blocker] (src.co.x + 6) = true ∧
     duplicate_keyframe [src, blocker] src 6 "BEZIER" true = [src, blocker]) := by
  have hfo : (6 : ℚ) = ((max 1 (6 : Int) : Int) : ℚ) := by norm_num
  refine ⟨hfo, ?_, ?_⟩
  · have h := duplicate_keyframe_spec
      [⟨⟨10, 5⟩, ⟨9, 5⟩, ⟨11, 5⟩, true, "BEZIER", "AUTO_CLAMPED", "AUTO_CLAMPED"⟩]
      ⟨⟨10, 5⟩, ⟨9, 5⟩, ⟨11, 5⟩, true, "BEZIER", "AUTO_CLAMPED", "AUTO_CLAMPED"⟩
      6 "BEZIER" true 6 hfo
    have hex : keyframe_exists
        [(⟨⟨10, 5⟩, ⟨9, 5⟩, ⟨11, 5⟩, true, "BEZIER", "AUTO_CLAMPED", "AUTO_CLAMPED"⟩ :
          KeyframePoint)]
        ((10 : ℚ) + 6) = false := by
      simp only [keyframe_exists, List.any_cons, List.any_nil]
      norm_num [abs_sub_le_iff]
    exact ⟨hex, h.2 hex⟩
  · have h := duplicate_keyframe_spec
      [⟨⟨10, 5⟩, ⟨9, 5⟩, ⟨11, 5⟩, true, "BEZIER", "AUTO_CLAMPED", "AUTO_CLAMPED"⟩,
       ⟨⟨16, 7⟩, ⟨15, 7⟩, ⟨17, 7⟩, false, "BEZIER", "AUTO_CLAMPED", "AUTO_CLAMPED"⟩]
      ⟨⟨10, 5⟩, ⟨9, 5⟩, ⟨11, 5⟩, true, "BEZIER", "AUTO_CLAMPED", "AUTO_CLAMPED"⟩
      6 "BEZIER" true 6 hfo
    have hex : keyframe_exists
        [(⟨⟨10, 5⟩, ⟨9, 5⟩, ⟨11, 5⟩, true, "BEZIER", "AUTO_CLAMPED", "AUTO_CLAMPED"⟩ :
          KeyframePoint),
         ⟨⟨16, 7⟩, ⟨15, 7⟩, ⟨17, 7⟩, false, "BEZIER", "AUTO_CLAMPED", "AUTO_CLAMPED"⟩]
        ((10 : ℚ) + 6) = true := by
      simp only [keyframe_exists, List.any_cons, List.any_nil]
      norm_num [abs_sub_le_iff]
    exact ⟨hex, h.1 hex⟩

/-! ## Quick Snap modal state machine -/

/-- A 3-D point of the host. -/
structure Vec3 where
  vx : ℚ
  vy : ℚ
  vz : ℚ
  deriving DecidableEq, Repr

def Vec3.add (a b : Vec3) : Vec3 := ⟨a.vx + b.vx, a.vy + b.vy, a.vz + b.vz⟩

def Vec3.sub (a b : Vec3) : Vec3 := ⟨a.vx - b.vx, a.vy - b.vy, a.vz - b.vz⟩

/-- Squared length, used to express the host's `translation.length < 1e-6`
threshold as `lengthSq < (1e-6)^2`. -/
def Vec3.lengthSq (a : Vec3) : ℚ := a.vx * a.vx + a.vy * a.vy + a.vz * a.vz

/-- The modal operator state (`operators/quick_snap.py`): either awaiting the
first (source) pick, or awaiting the second (destination) pick with the
source point recorded — `_stage` plus `_source_point`, whose not-`None`
invariant in the `DEST` stage (the `assert` at line 122) is carried by the
constructor. -/
inductive SnapStage where
  | awaitingSource : SnapStage
  | awaitingDest : Vec3 → SnapStage
  deriving DecidableEq, Repr

/-- The result value of `modal`. -/
inductive ModalResult where
  | cancelled
  | finished
  | runningModal
  | passThrough
  deriving DecidableEq, Repr

/-- The document as the snap tool affects it: the accumulated translation
`_apply_translation` has applied to the selection. -/
structure SnapScene where
  applied : Vec3
  deriving DecidableEq, Repr

/-- An event delivered to `modal`: ESC/right-mouse, a left-mouse press
(carrying the outcome of `_pick_point` as a function of the
restrict-to-selection flag, which `_handle_click` sets from the stage), or
any other event. -/
inductive SnapEvent where
  | cancelEvent : SnapEvent
  | click : (Bool → Option Vec3) → SnapEvent
  | other : SnapEvent

/-- Embeds `modal` together with `_handle_click`
(`operators/quick_snap.py`, lines 80-93 and 106-134): ESC/right-mouse
cancels; a left-mouse press picks (restricted to the selection exactly when
awaiting the source); a failed pick changes nothing; a source pick moves to
the destination stage; a destination pick translates the selection by the
difference unless it is shorter than the `1e-6` threshold, and finishes. -/
def snap_modal (stage : SnapStage) (scene : SnapScene) (ev : SnapEvent) :
    ModalResult × SnapStage × SnapScene :=
  match ev with
  | .cancelEvent => (.cancelled, stage, scene)
  | .other => (.passThrough, stage, scene)
  | .click pickAt =>
    let restrict_to_selection : Bool :=
      match stage with
      | .awaitingSource => true
      | .awaitingDest _ => false
    match pickAt restrict_to_selection with
    | none => (.runningModal, stage, scene)
    | some location =>
      match stage with
      | .awaitingSource => (.runningModal, .awaitingDest location, scene)
      | .awaitingDest source_point =>
        let translation := location.sub source_point
        if translation.lengthSq < (1 / 1000000) * (1 / 1000000) then
          (.finished, stage, scene)
        else
          (.finished, stage, { scene with applied := scene.applied.add translation })

/-- The state `invoke` leaves the operator in after its guards pass
(`_reset_state`, lines 95-101): awaiting the source pick. -/
def snap_invoke_state : SnapStage := .awaitingSource

/-- Iterated `modal` over an event list, tracking stage and scene. -/
def snap_run (stage : SnapStage) (scene : SnapScene) :
    List SnapEvent → SnapStage × SnapScene
  | [] => (stage, scene)
  | ev :: rest =>
    let r := snap_modal stage scene ev
    snap_run r.2.1 r.2.2 rest

theorem snap_modal_source_scene (scene : SnapScene) (ev : SnapEvent) :
    (snap_modal .awaitingSource scene ev).2.2 = scene := by
  cases ev with
  | cancelEvent => rfl
  | other => rfl
  | click pickAt =>
    simp only [snap_modal]
    cases pickAt true with
    | none => rfl
    | some location => rfl

theorem snap_modal_move_characterization (stage : SnapStage) (scene : SnapScene)
    (ev : SnapEvent) (h : (snap_modal stage scene ev).2.2 ≠ scene) :
    ∃ source_point pickAt location,
      stage = .awaitingDest source_point ∧ ev = .click pickAt ∧
      pickAt false = some location ∧
      (snap_modal stage scene ev).1 = .finished ∧
      (snap_modal stage scene ev).2.2.applied =
        scene.applied.add (location.sub source_point) := by
  cases ev with
  | cancelEvent => exact absurd rfl h
  | other => exact absurd rfl h
  | click pickAt =>
    cases stage with
    | awaitingSource =>
      exact absurd (snap_modal_source_scene scene (.click pickAt)) h
    | awaitingDest source_point =>
      simp only [snap_modal] at h ⊢
      cases hp : pickAt false with
      | none => rw [hp] at h; exact absurd rfl h
      | some location =>
        rw [hp] at h
        dsimp only at h ⊢
        by_cases hlen : (location.sub source_point).lengthSq <
            (1 / 1000000) * (1 / 1000000)
        · rw [if_pos hlen] at h
          exact absurd rfl h
        · refine ⟨source_point, pickAt, location, rfl, rfl, hp, ?_, ?_⟩ <;>
            rw [if_neg hlen]

theorem snap_run_move (stage : SnapStage) (scene : SnapScene)
    (events : List SnapEvent)
    (h : (snap_run stage scene events).2 ≠ scene) :
    ∃ stage2 scene2 pickAt location source_point,
      stage2 = SnapStage.awaitingDest source_point ∧
      pickAt false = some location ∧
      (snap_modal stage2 scene2 (.click pickAt)).2.2 ≠ scene2 := by
  induction events generalizing stage scene with
  | nil => exact absurd rfl h
  | cons ev rest ih =>
    simp only [snap_run] at h
    by_cases hstep : (snap_modal stage scene ev).2.2 = scene
    · rw [hstep] at h
      exact ih _ _ h
    · obtain ⟨sp, pk, loc, h1, h2, h3, _, _⟩ :=
        snap_modal_move_characterization stage scene ev hstep
      subst h2
      exact ⟨stage, scene, pk, loc, sp, h1, h3, hstep⟩

/-- Claim C7: The Quick Snap modal tool is a two-click state toggle: it starts
awaiting the source pick; ESC or right-mouse cancels from either stage
without moving anything; a click whose pick fails leaves stage and scene
unchanged (the pick is restricted to the selection exactly in the source
stage); a successful pick while awaiting the source records it, moves to
awaiting the destination and moves nothing; no step taken while awaiting the
source changes the scene; whenever a modal step changes the scene, the tool
was in the destination stage (which carries the previously picked source
point) and the destination pick succeeded; and over any event sequence from
the initial state the scene changes only by such a step — so the selection
is never translated before a source pick and a destination pick have both
succeeded. -/
theorem quick_snap_two_click_spec (scene : SnapScene) :
    snap_invoke_state = SnapStage.awaitingSource ∧
    (∀ stage, snap_modal stage scene .cancelEvent = (.cancelled, stage, scene)) ∧
    (∀ stage pickAt,
      pickAt (match stage with
              | SnapStage.awaitingSource => true
              | SnapStage.awaitingDest _ => false) = none →
      snap_modal stage scene (.click pickAt) = (.runningModal, stage, scene)) ∧
    (∀ pickAt location, pickAt true = some location →
      snap_modal .awaitingSource scene (.click pickAt) =
        (.runningModal, .awaitingDest location, scene)) ∧
    (∀ ev, (snap_modal .awaitingSource scene ev).2.2 = scene) ∧
    (∀ stage ev, (snap_modal stage scene ev).2.2 ≠ scene →
      ∃ source_point pickAt location,
        stage = SnapStage.awaitingDest source_point ∧ ev = .click pickAt ∧
        pickAt false = some location) ∧
    (∀ events, (snap_run .awaitingSource scene events).2 ≠ scene →
      ∃ stage2 scene2 pickAt location source_point,
        stage2 = SnapStage.awaitingDest source_point ∧
        pickAt false = some location ∧
        (snap_modal stage2 scene2 (.click pickAt)).2.2 ≠ scene2) := by
  refine ⟨rfl, fun stage => rfl, ?_, ?_, fun ev => snap_modal_source_scene scene ev,
    ?_, fun events h => snap_run_move _ scene events h⟩
  · intro stage pickAt hp
    cases stage <;> simp only [snap_modal, hp]
  · intro pickAt location hp
    simp only [snap_modal, hp]
  · intro stage ev h
    obtain ⟨sp, pk, loc, h1, h2, h3, _, _⟩ :=
      snap_modal_move_characterization stage scene ev h
    exact ⟨sp, pk, loc, h1, h2, h3⟩

/-- Witness for C7 on a concrete run: picking source `(0,0,0)` then
destination `(1,0,0)` translates the selection by `(1,0,0)`, and a
fail-then-cancel run moves nothing. -/
theorem quick_snap_two_click_spec_witness :
    (snap_modal .awaitingSource ⟨⟨0, 0, 0⟩⟩ (.cancelEvent) =
      (.cancelled, .awaitingSource, ⟨⟨0, 0, 0⟩⟩)) ∧
    ((fun _ => (none : Option Vec3)) true = none ∧
      snap_modal .awaitingSource ⟨⟨0, 0, 0⟩⟩ (.click (fun _ => none)) =
        (.runningModal, .awaitingSource, ⟨⟨0, 0, 0⟩⟩)) ∧
    ((fun _ => some (⟨0, 0, 0⟩ : Vec3)) true = some ⟨0, 0, 0⟩ ∧
      snap_modal .awaitingSource ⟨⟨0, 0, 0⟩⟩ (.click (fun _ => some ⟨0, 0, 0⟩)) =
        (.runningModal, .awaitingDest ⟨0, 0, 0⟩, ⟨⟨0, 0, 0⟩⟩)) := by
  have h := quick_snap_two_click_spec ⟨⟨0, 0, 0⟩⟩
  refine ⟨h.2.1 .awaitingSource, ⟨rfl, ?_⟩, ⟨rfl, ?_⟩⟩
  · exact h.2.2.1 .awaitingSource (fun _ => none) rfl
  · exact h.2.2.2.1 (fun _ => some ⟨0, 0, 0⟩) ⟨0, 0, 0⟩ rfl

/-! ## Auto blink loop -/

/-- The per-object `while` loop of `ANIMATIONQOL_OT_generate_auto_blinks.execute`
(`operators/auto_blink.py`, lines 80-99), with an explicit fuel so that the
claimed termination is a theorem rather than an assumption.  Arguments after
the configuration: remaining fuel, `current_frame`, the blink counter (also
indexing the per-iteration `rng.randint` draw `rnd`), and the keyframes
inserted so far as `(frame, value)` pairs.  `none` means the fuel ran out;
the code's loop corresponds to unlimited fuel. -/
def blinkLoop (fe close hold opn interval randomness : Int) (strength : ℚ)
    (rnd : Nat → Int) (fs : Int) :
    Nat → Int → Nat → List (Int × ℚ) → Option (List (Int × ℚ) × Nat)
  | fuel, current, k, acc =>
    if current + (close + hold + opn) ≤ fe then
      match fuel with
      | 0 => none
      | fuel2 + 1 =>
        let blink_start := current
        let close_end := blink_start + close
        let hold_end := close_end + hold
        let open_end := hold_end + opn
        let acc2 := acc ++ [(max fs (blink_start - 1), 0)] ++ [(close_end, strength)] ++
          (if hold ≠ 0 then [(hold_end, strength)] else []) ++ [(open_end, 0)]
        let interval_variation := if randomness ≠ 0 then rnd k else 0
        let next_gap := max 1 (interval + interval_variation)
        blinkLoop fe close hold opn interval randomness strength rnd fs
          fuel2 (open_end + next_gap) (k + 1) acc2
    else some (acc, k)

theorem blinkLoop_isSome (fe close hold opn interval randomness : Int)
    (strength : ℚ) (rnd : Nat → Int) (fs : Int)
    (hc : 1 ≤ close) (ho : 1 ≤ opn) (hh : 0 ≤ hold) :
    ∀ (fuel : Nat) (current : Int) (k : Nat) (acc : List (Int × ℚ)),
      (fe - current).toNat < fuel →
      (blinkLoop fe close hold opn interval randomness strength rnd fs
        fuel current k acc).isSome := by
  intro fuel
  induction fuel with
  | zero => intro current k acc h; omega
  | succ fuel2 ih =>
    intro current k acc h
    rw [blinkLoop]
    by_cases hcond : current + (close + hold + opn) ≤ fe
    · rw [if_pos hcond]
      apply ih
      have hgap : 1 ≤ max 1 (interval + if randomness ≠ 0 then rnd k else 0) :=
        le_max_left _ _
      omega
    · rw [if_neg hcond]
      rfl

/-- Claim C8: For every settings configuration and every sequence of random
draws, the per-object `while` loop of Generate Auto Blinks terminates: with
the close and open phases clamped to at least one frame and the hold phase
to at least zero (`operators/auto_blink.py`, lines 44-49), the blink length
is at least 2, the gap to the next blink is clamped to at least 1, so
`current_frame` strictly increases and the loop (given fuel one more than
the frame span) exits — having run only while `current_frame` did not exceed
`frame_end` minus the blink length. -/
theorem auto_blink_loop_terminates
    (blink_frame_start blink_frame_end blink_interval blink_interval_random
      blink_close_frames blink_open_frames blink_hold_frames : Int)
    (blink_strength : ℚ) (rnd : Nat → Int) :
    2 ≤ max 1 blink_close_frames + max 0 blink_hold_frames +
      max 1 blink_open_frames ∧
    (∀ variation : Int, 1 ≤ max 1 (max 1 blink_interval + variation)) ∧
    (blinkLoop (max blink_frame_start blink_frame_end)
      (max 1 blink_close_frames) (max 0 blink_hold_frames)
      (max 1 blink_open_frames) (max 1 blink_interval)
      (max 0 blink_interval_random) blink_strength rnd
      (min blink_frame_start blink_frame_end)
      ((max blink_frame_start blink_frame_end -
        min blink_frame_start blink_frame_end).toNat + 1)
      (min blink_frame_start blink_frame_end) 0 []).isSome := by
  refine ⟨by omega, fun variation => le_max_left _ _, ?_⟩
  apply blinkLoop_isSome <;> omega

/-- Witness for C8 at a degenerate configuration (equal start and end frame,
everything else zero or negative before clamping): the loop still exits. -/
theorem auto_blink_loop_terminates_witness :
    (blinkLoop (max 5 5) (max 1 0) (max 0 (-2)) (max 1 0) (max 1 0) (max 0 0)
      1 (fun _ => 0) (min 5 5) (((max 5 5 : Int) - min 5 5).toNat + 1)
      (min 5 5) 0 []).isSome :=
  (auto_blink_loop_terminates 5 5 0 0 0 0 (-2) 1 (fun _ => 0)).2.2

/-! ## Scene cleanup -/

/-- An object as the cleanup pass sees it: its type string, whether it comes
from a linked library, its render-hide flag, and what `visible_get()` reports
for it on the current view layer. -/
structure SceneObject where
  name : String
  objType : String
  library : Bool
  hide_render : Bool
  visible_on_view_layer : Bool
  deriving DecidableEq, Repr

/-- The cleanup fields of `AnimationQOLSceneSettings`
(`properties.py`, lines 304-333). -/
structure CleanupSettings where
  cleanup_consider_viewport : Bool
  cleanup_consider_render : Bool
  cleanup_keep_lights : Bool
  cleanup_keep_cameras : Bool
  cleanup_keep_active_camera : Bool
  cleanup_exclude_linked_data : Bool
  deriving DecidableEq, Repr

/-- A scene as the cleanup pass reads it: its objects and its active camera. -/
structure CleanupScene where
  objects : List SceneObject
  camera : Option SceneObject
  deriving DecidableEq, Repr

/-- Embeds `object_affects_lighting` (`animation_qol/utils/objects.py`,
lines 178-181). -/
def object_affects_lighting (obj : SceneObject) : Bool :=
  obj.objType == "LIGHT" || obj.objType == "LIGHT_PROBE"

/-- Embeds `object_is_visible` (`animation_qol/utils/objects.py`, lines 149-175):
with both criteria off everything counts as visible; an object not hidden
from renders is visible under the render criterion; an object
`visible_get()` reports is visible under the viewport criterion. -/
def object_is_visible (obj : SceneObject)
    (consider_viewport consider_render : Bool) : Bool :=
  if !consider_render && !consider_viewport then true
  else if consider_render && !obj.hide_render then true
  else if consider_viewport && obj.visible_on_view_layer then true
  else false

/-- Embeds `_gather_cleanup_targets` (`animation_qol/operators/scene_cleanup.py`,
lines 18-55): walk the scene objects, skipping linked objects when
configured, lighting objects when keeping lights, the active camera or all
cameras when configured, and everything still visible under the configured
criteria; the rest are the deletion candidates. -/
def gather_cleanup_targets (scene : CleanupScene) (settings : CleanupSettings) :
    List SceneObject :=
  scene.objects.filter (fun obj =>
    if settings.cleanup_exclude_linked_data && obj.library then false
    else if object_affects_lighting obj && settings.cleanup_keep_lights then false
    else if obj.objType == "CAMERA" &&
        (settings.cleanup_keep_active_camera && scene.camera == some obj) then false
    else if obj.objType == "CAMERA" && settings.cleanup_keep_cameras then false
    else if object_is_visible obj settings.cleanup_consider_viewport
        settings.cleanup_consider_render then false
    else true)

/-- Claim C10: Every object in the candidate list produced by the scene-cleanup
gatherer (hence every object the cleanup operator deletes) is invisible under
the configured viewport/render criteria; the list never contains a light or
light probe when keep-lights is set, never the scene's active camera when
keep-active-camera is set, never any camera when keep-cameras is set, and
never a linked-library object when skip-linked is set.  (The active-camera
clause uses the host invariant that the scene's active camera is a camera
object.) -/
theorem gather_cleanup_targets_spec (scene : CleanupScene)
    (settings : CleanupSettings)
    (hcam : ∀ c, scene.camera = some c → c.objType = "CAMERA") :
    ∀ obj ∈ gather_cleanup_targets scene settings,
      object_is_visible obj settings.cleanup_consider_viewport
        settings.cleanup_consider_render = false ∧
      (settings.cleanup_keep_lights = true → object_affects_lighting obj = false) ∧
      (settings.cleanup_keep_active_camera = true → scene.camera ≠ some obj) ∧
      (settings.cleanup_keep_cameras = true → obj.objType ≠ "CAMERA") ∧
      (settings.cleanup_exclude_linked_data = true → obj.library = false) := by
  intro obj hmem
  rw [gather_cleanup_targets, List.mem_filter] at hmem
  obtain ⟨-, hkeep⟩ := hmem
  by_cases h1 : (settings.cleanup_exclude_linked_data && obj.library) = true
  · simp [h1] at hkeep
  by_cases h2 : (object_affects_lighting obj && settings.cleanup_keep_lights) = true
  · simp only [h1, h2] at hkeep
    simp at hkeep
  by_cases h3 : (obj.objType == "CAMERA" &&
      (settings.cleanup_keep_active_camera && scene.camera == some obj)) = true
  · simp only [h1, h2, h3] at hkeep
    simp at hkeep
  by_cases h4 : (obj.objType == "CAMERA" && settings.cleanup_keep_cameras) = true
  · simp only [h1, h2, h3, h4] at hkeep
    simp at hkeep
  by_cases h5 : object_is_visible obj settings.cleanup_consider_viewport
      settings.cleanup_consider_render = true
  · simp only [h1, h2, h3, h4, h5] at hkeep
    simp at hkeep
  refine ⟨by simpa using h5, ?_, ?_, ?_, ?_⟩
  · intro hl
    by_cases h : object_affects_lighting obj = true
    · exact absurd (by simp [h, hl]) h2
    · simpa using h
  · intro hk hmm
    have hcamt : obj.objType = "CAMERA" := hcam obj hmm
    exact h3 (by simp [hcamt, hk, hmm.symm])
  · intro hk hct
    exact h4 (by simp [hct, hk])
  · intro hl
    by_cases h : obj.library = true
    · exact absurd (by simp [h, hl]) h1
    · simpa using h

/-- Witness for C10: in a scene holding a hidden mesh, a hidden linked mesh
and the active camera, with every keep/skip option on and both visibility
criteria on, the gathered candidates are all invisible, non-light,
non-camera, not linked and not the active camera. -/
theorem gather_cleanup_targets_spec_witness :
    (∀ c, (CleanupScene.mk
        [⟨"Cube", "MESH", false, true, false⟩,
         ⟨"Linked", "MESH", true, true, false⟩,
         ⟨"Cam", "CAMERA", false, true, false⟩]
        (some ⟨"Cam", "CAMERA", false, true, false⟩)).camera
        = some c → c.objType = "CAMERA") ∧
    ∀ obj ∈ gather_cleanup_targets
      (CleanupScene.mk
        [⟨"Cube", "MESH", false, true, false⟩,
         ⟨"Linked", "MESH", true, true, false⟩,
         ⟨"Cam", "CAMERA", false, true, false⟩]
        (some ⟨"Cam", "CAMERA", false, true, false⟩))
      ⟨true, true, true, true, true, true⟩,
      object_is_visible obj true true = false ∧ obj.library = false := by
  constructor
  · intro c hc
    cases hc
    rfl
  · intro obj hmem
    have h := gather_cleanup_targets_spec
      (CleanupScene.mk
        [⟨"Cube", "MESH", false, true, false⟩,
         ⟨"Linked", "MESH", true, true, false⟩,
         ⟨"Cam", "CAMERA", false, true, false⟩]
        (some ⟨"Cam", "CAMERA", false, true, false⟩))
      ⟨true, true, true, true, true, true⟩
      (by intro c hc; cases hc; rfl) obj hmem
    exact ⟨h.1, h.2.2.2.2 rfl⟩

/-! ## Operator execute models: keyframe offset and stagger timing -/

/-- The outcome value of a non-modal operator `execute`. -/
inductive OpResult where
  | cancelled
  | finished
  deriving DecidableEq, Repr

/-- The level of an operator report. -/
inductive ReportKind where
  | error
  | warning
  | info
  deriving DecidableEq, Repr

/-- One `self.report` call. -/
structure Report where
  kind : ReportKind
  message : String
  deriving DecidableEq, Repr

/-- The keyframe-offset fields of `AnimationQOLSceneSettings`
(`properties.py`, lines 119-142). -/
structure OffsetSettings where
  keyframe_frame_offset : Int
  keyframe_only_selected_keys : Bool
  keyframe_offset_mode : String
  deriving DecidableEq, Repr

/-- The operator properties of `ANIMATIONQOL_OT_offset_keyframes`
(`operators/keyframe_offset.py`, lines 33-58). -/
structure OffsetProps where
  frame_delta : Int
  use_scene_settings : Bool
  affect_all_keys : Bool
  offset_mode : String
  deriving DecidableEq, Repr

/-- Embeds `_sort_key_by_name` (`operators/keyframe_offset.py`, lines 13-20). -/
def sort_key_by_name (fc : FCurve) : String × String × String × Int :=
  (fc.id_name, fc.group_name, fc.data_path, fc.array_index)

/-- Python's ascending tuple sort for `sorted(..., key=_sort_key_by_name)`:
lexicographic comparison of the four key components. -/
def sortByNameLE (a b : FCurve) : Bool :=
  let ka := sort_key_by_name a
  let kb := sort_key_by_name b
  ((compare ka.1 kb.1).then ((compare ka.2.1 kb.2.1).then
    ((compare ka.2.2.1 kb.2.2.1).then (compare ka.2.2.2 kb.2.2.2)))) ≠ Ordering.gt

/-- Apply one in-place curve mutation of the offset loop: curves whose dedup
key is planned get their keyframes shifted by the planned delta; every other
curve is untouched.  (Same-key entries of the context are the same host
curve, so each occurrence receives the one planned shift.) -/
def applyShiftPlan (plan : List ((Nat × String × Int) × Int))
    (only_selected : Bool) (fc : FCurve) : FCurve :=
  match plan.lookup (fcurveKey fc) with
  | some d => { fc with points := (shift_keyframes fc.points (d : ℚ) only_selected).1 }
  | none => fc

/-- Rewrite every f-curve occurrence of the context through `f`, modelling
in-place mutation of host curves referenced from several places. -/
def mapCtxCurves (ctx : GatherCtx) (f : FCurve → FCurve) : GatherCtx :=
  ⟨ctx.selected_editable_fcurves.map f,
   ctx.selected_objects.map (fun o => ⟨o.action_fcurves.map f, o.shape_key_fcurves.map f⟩),
   ctx.active_object.map (fun o => ⟨o.action_fcurves.map f, o.shape_key_fcurves.map f⟩)⟩

/-- Embeds `ANIMATIONQOL_OT_offset_keyframes.execute`
(`operators/keyframe_offset.py`, lines 60-126): resolve the effective
configuration, abort on missing settings / zero offset / no curves, order
the curves (alphabetically in NAME mode), plan the per-curve delta (uniform,
or `frame_delta * index` skipping zero in the cascading modes), apply the
shifts, and abort when nothing moved. -/
def offsetExecute (settings : Option OffsetSettings) (props : OffsetProps)
    (ctx : GatherCtx) : OpResult × GatherCtx × List Report :=
  match settings with
  | none => (.cancelled, ctx, [⟨.error, "YABQOLA settings missing on the scene."⟩])
  | some s =>
    let frame_delta :=
      if props.use_scene_settings then s.keyframe_frame_offset else props.frame_delta
    let only_selected :=
      if props.use_scene_settings then s.keyframe_only_selected_keys
      else !props.affect_all_keys
    let mode :=
      if props.use_scene_settings then s.keyframe_offset_mode else props.offset_mode
    if frame_delta = 0 then
      (.cancelled, ctx, [⟨.warning, "Frame offset is zero; nothing to do."⟩])
    else
      let fcurves0 := gather_target_fcurves ctx true true
      let fcurves := if fcurves0 = [] then gather_target_fcurves ctx false true
        else fcurves0
      if fcurves = [] then
        (.cancelled, ctx, [⟨.warning, "No animation curves available for offset."⟩])
      else
        let ordered := if mode = "NAME" then fcurves.mergeSort sortByNameLE else fcurves
        let planned : List (FCurve × Int) :=
          if mode = "UNIFORM" then ordered.map (fun fc => (fc, frame_delta))
          else ((List.range ordered.length).zip ordered).filterMap
            (fun p => if frame_delta * (p.1 : Int) = 0 then none
              else some (p.2, frame_delta * (p.1 : Int)))
        let ctx2 := mapCtxCurves ctx
          (applyShiftPlan (planned.map (fun p => (fcurveKey p.1, p.2))) only_selected)
        let moved_total :=
          (planned.map (fun p =>
            (shift_keyframes p.1.points (p.2 : ℚ) only_selected).2)).sum
        if moved_total = 0 then
          (.cancelled, ctx2,
            [⟨.warning,
              "No keyframes were moved. Select the keys you want to offset or disable 'Only Selected'."⟩])
        else (.finished, ctx2, [⟨.info, "offset applied"⟩])

/-- Embeds `ANIMATIONQOL_OT_offset_keyframes.execute` of the uniform-only variant
(`YABQOLA/operators/keyframe_offset.py`, lines 38-80): as above, without the
cascading modes. -/
def offsetExecuteSimple (settings : Option OffsetSettings) (props : OffsetProps)
    (ctx : GatherCtx) : OpResult × GatherCtx × List Report :=
  match settings with
  | none => (.cancelled, ctx, [⟨.error, "YABQOLA settings missing on the scene."⟩])
  | some s =>
    let frame_delta :=
      if props.use_scene_settings then s.keyframe_frame_offset else props.frame_delta
    let only_selected :=
      if props.use_scene_settings then s.keyframe_only_selected_keys
      else !props.affect_all_keys
    if frame_delta = 0 then
      (.cancelled, ctx, [⟨.warning, "Frame offset is zero; nothing to do."⟩])
    else
      let fcurves0 := gather_target_fcurves ctx true true
      let fcurves := if fcurves0 = [] then gather_target_fcurves ctx false true
        else fcurves0
      if fcurves = [] then
        (.cancelled, ctx, [⟨.warning, "No animation curves available for offset."⟩])
      else
        let ctx2 := mapCtxCurves ctx
          (applyShiftPlan (fcurves.map (fun fc => (fcurveKey fc, frame_delta)))
            only_selected)
        let moved_total :=
          (fcurves.map (fun fc =>
            (shift_keyframes fc.points (frame_delta : ℚ) only_selected).2)).sum
        if moved_total = 0 then
          (.cancelled, ctx2,
            [⟨.warning,
              "No keyframes were moved. Select the keys you want to offset or disable 'Only Selected'."⟩])
        else (.finished, ctx2, [⟨.info, "offset applied"⟩])

/-- A pose bone as the stagger operator sees it: the f-curves driving it.
(`iter_fcurves_for_pose_bone` itself is not part of this snapshot; its
call-site only needs the per-bone curve list, modelled as this field.) -/
structure PoseBone where
  bone_fcurves : List FCurve
  deriving DecidableEq, Repr

/-- The stagger fields of `AnimationQOLSceneSettings`
(`properties.py`, lines 145-167). -/
structure StaggerSettings where
  stagger_step : Int
  stagger_selected_only : Bool
  stagger_reverse_order : Bool
  stagger_include_shape_keys : Bool
  deriving DecidableEq, Repr

/-- The operator properties of `ANIMATIONQOL_OT_stagger_keyframes`
(`operators/stagger_timing.py`, lines 26-51). -/
structure StaggerProps where
  step : Int
  use_scene_settings : Bool
  selected_only : Bool
  reverse_order : Bool
  include_shape_keys : Bool
  deriving DecidableEq, Repr

/-- The context fields the stagger operator reads. -/
structure StaggerCtx where
  selected_pose_bones : List PoseBone
  active_pose_bone : Option PoseBone
  selected_objects : List AnimObject
  active_object : Option AnimObject
  deriving DecidableEq, Repr

/-- Shift every unlocked f-curve of a list by a delta, returning the new
curves and the number of keyframes moved (the inner loop of
`_stagger_objects` / `_stagger_pose_bones`). -/
def staggerShiftCurves (curves : List FCurve) (frame_delta : Int)
    (selected_only : Bool) : List FCurve × Nat :=
  (curves.map (fun fc =>
      if fc.lock then fc
      else { fc with
        points := (shift_keyframes fc.points (frame_delta : ℚ) selected_only).1 }),
   (curves.map (fun fc =>
      if fc.lock then 0
      else (shift_keyframes fc.points (frame_delta : ℚ) selected_only).2)).sum)

/-- Embeds `_stagger_objects` (`operators/stagger_timing.py`, lines 126-153):
enumerate the objects, skip delta zero (index 0), shift action curves and —
when configured — shape-key curves.  Returns the objects after mutation (in
processing order) and the total moved count. -/
def stagger_objects : List AnimObject → Int → Int → Bool → Bool →
    List AnimObject × Nat
  | [], _, _, _, _ => ([], 0)
  | obj :: rest, index, step, selected_only, include_shape_keys =>
    let r := stagger_objects rest (index + 1) step selected_only include_shape_keys
    let frame_delta := index * step
    if frame_delta = 0 then (obj :: r.1, r.2)
    else
      let ra := staggerShiftCurves obj.action_fcurves frame_delta selected_only
      let rs := if include_shape_keys then
          staggerShiftCurves obj.shape_key_fcurves frame_delta selected_only
        else (obj.shape_key_fcurves, 0)
      (⟨ra.1, rs.1⟩ :: r.1, ra.2 + rs.2 + r.2)

/-- Embeds `_stagger_pose_bones` (`operators/stagger_timing.py`, lines 155-178). -/
def stagger_pose_bones : List PoseBone → Int → Int → Bool → List PoseBone × Nat
  | [], _, _, _ => ([], 0)
  | bone :: rest, index, step, selected_only =>
    let r := stagger_pose_bones rest (index + 1) step selected_only
    let frame_delta := index * step
    if frame_delta = 0 then (bone :: r.1, r.2)
    else
      let rb := staggerShiftCurves bone.bone_fcurves frame_delta selected_only
      (⟨rb.1⟩ :: r.1, rb.2 + r.2)

/-- The pose-bone list the operator assembles
(`operators/stagger_timing.py`, lines 76-79). -/
def staggerBonesOf (ctx : StaggerCtx) : List PoseBone :=
  ctx.selected_pose_bones ++
    (match ctx.active_pose_bone with
     | some b => if b ∈ ctx.selected_pose_bones then [] else [b]
     | none => [])

/-- The object list the operator assembles
(`operators/stagger_timing.py`, lines 93-97). -/
def staggerObjectsOf (ctx : StaggerCtx) : List AnimObject :=
  if ctx.selected_objects = [] then
    (match ctx.active_object with
     | some a => [a]
     | none => [])
  else ctx.selected_objects

/-- Embeds `ANIMATIONQOL_OT_stagger_keyframes.execute`
(`operators/stagger_timing.py`, lines 53-124): abort on missing settings or
zero step; stagger pose bones when more than one is selected, otherwise
stagger the selected objects (aborting when fewer than two); abort when
nothing moved.  The returned document is the assembled pose-bone and object
lists (in assembly order) with all mutations applied. -/
def staggerExecute (settings : Option StaggerSettings) (props : StaggerProps)
    (ctx : StaggerCtx) :
    OpResult × (List PoseBone × List AnimObject) × List Report :=
  match settings with
  | none =>
    (.cancelled, (staggerBonesOf ctx, staggerObjectsOf ctx),
      [⟨.error, "YABQOLA settings missing on the scene."⟩])
  | some s =>
    let step := if props.use_scene_settings then s.stagger_step else props.step
    let selected_only :=
      if props.use_scene_settings then s.stagger_selected_only else props.selected_only
    let reverse_order :=
      if props.use_scene_settings then s.stagger_reverse_order else props.reverse_order
    let include_shape_keys :=
      if props.use_scene_settings then s.stagger_include_shape_keys
      else props.include_shape_keys
    if step = 0 then
      (.cancelled, (staggerBonesOf ctx, staggerObjectsOf ctx),
        [⟨.warning, "Stagger step is zero; adjust the step value to offset timing."⟩])
    else
      let pose_bones := staggerBonesOf ctx
      let use_bones := 1 < pose_bones.length
      if use_bones then
        let ordered := if reverse_order then pose_bones.reverse else pose_bones
        let rb := stagger_pose_bones ordered 0 step selected_only
        let bones_after := if reverse_order then rb.1.reverse else rb.1
        if rb.2 = 0 then
          (.cancelled, (bones_after, staggerObjectsOf ctx),
            [⟨.warning,
              "No keyframes were staggered. Ensure keys are selected or disable 'Selected Keys Only'."⟩])
        else
          (.finished, (bones_after, staggerObjectsOf ctx),
            [⟨.info, "staggered"⟩])
      else
        let objects := staggerObjectsOf ctx
        if objects.length ≤ 1 then
          (.cancelled, (pose_bones, objects),
            [⟨.warning,
              "Select at least two objects or pose bones to stagger their animation timing."⟩])
        else
          let ordered := if reverse_order then objects.reverse else objects
          let ro := stagger_objects ordered 0 step selected_only include_shape_keys
          let objects_after := if reverse_order then ro.1.reverse else ro.1
          if ro.2 = 0 then
            (.cancelled, (pose_bones, objects_after),
              [⟨.warning,
                "No keyframes were staggered. Ensure keys are selected or disable 'Selected Keys Only'."⟩])
          else
            (.finished, (pose_bones, objects_after), [⟨.info, "staggered"⟩])

/-- Claim C3: Applying a zero offset is a no-op: whenever the effective frame
delta (both keyframe-offset variants) or the effective step (stagger timing)
is zero, `execute` returns CANCELLED with a warning and the document —
context curves, assembled pose bones and objects — is exactly the input, so
no keyframe coordinate is modified. -/
theorem zero_offset_is_noop (s : OffsetSettings) (props : OffsetProps)
    (ctx : GatherCtx) (st : StaggerSettings) (sprops : StaggerProps)
    (sctx : StaggerCtx)
    (hdelta : (if props.use_scene_settings then s.keyframe_frame_offset
      else props.frame_delta) = 0)
    (hstep : (if sprops.use_scene_settings then st.stagger_step
      else sprops.step) = 0) :
    offsetExecute (some s) props ctx =
      (.cancelled, ctx, [⟨.warning, "Frame offset is zero; nothing to do."⟩]) ∧
    offsetExecuteSimple (some s) props ctx =
      (.cancelled, ctx, [⟨.warning, "Frame offset is zero; nothing to do."⟩]) ∧
    staggerExecute (some st) sprops sctx =
      (.cancelled, (staggerBonesOf sctx, staggerObjectsOf sctx),
        [⟨.warning, "Stagger step is zero; adjust the step value to offset timing."⟩]) := by
  refine ⟨?_, ?_, ?_⟩
  · simp only [offsetExecute, hdelta, if_pos]
  · simp only [offsetExecuteSimple, hdelta, if_pos]
  · simp only [staggerExecute, hstep, if_pos]

/-- Witness for C3: with the scene settings selected and a configured offset
and step of zero, both offset variants and the stagger operator cancel with
a warning and leave an example context untouched. -/
theorem zero_offset_is_noop_witness :
    ((if (true : Bool) then (0 : Int) else 7) = 0) ∧
    ((if (true : Bool) then (0 : Int) else 5) = 0) ∧
    offsetExecute (some ⟨0, true, "UNIFORM"⟩) ⟨7, true, false, "UNIFORM"⟩
        ⟨[⟨some 1, 1, "location", 0, false, "Cube", "",
            [⟨⟨1, 2⟩, ⟨0, 2⟩, ⟨2, 2⟩, true, "BEZIER", "FREE", "FREE"⟩], []⟩],
          [], none⟩ =
      (.cancelled,
        ⟨[⟨some 1, 1, "location", 0, false, "Cube", "",
            [⟨⟨1, 2⟩, ⟨0, 2⟩, ⟨2, 2⟩, true, "BEZIER", "FREE", "FREE"⟩], []⟩],
          [], none⟩,
        [⟨.warning, "Frame offset is zero; nothing to do."⟩]) ∧
    staggerExecute (some ⟨0, true, false, true⟩) ⟨5, true, true, false, true⟩
        ⟨[], none, [], none⟩ =
      (.cancelled, (staggerBonesOf ⟨[], none, [], none⟩,
          staggerObjectsOf ⟨[], none, [], none⟩),
        [⟨.warning, "Stagger step is zero; adjust the step value to offset timing."⟩]) := by
  have h := zero_offset_is_noop ⟨0, true, "UNIFORM"⟩ ⟨7, true, false, "UNIFORM"⟩
    ⟨[⟨some 1, 1, "location", 0, false, "Cube", "",
        [⟨⟨1, 2⟩, ⟨0, 2⟩, ⟨2, 2⟩, true, "BEZIER", "FREE", "FREE"⟩], []⟩],
      [], none⟩
    ⟨0, true, false, true⟩ ⟨5, true, true, false, true⟩ ⟨[], none, [], none⟩
    rfl rfl
  exact ⟨rfl, rfl, h.1, h.2.2⟩

/-! ## Noise randomizer, Quick Snap invoke and Auto Blink execute models -/

/-- Host defaults of a freshly created NOISE f-modifier
(`fcurve.modifiers.new(type="NOISE")`); strength and scale are overwritten
right away by the operator, and every field is randomized afterwards. -/
def hostNewNoiseModifier : NoiseModifier :=
  ⟨"NOISE", 0, 0, 1, 1⟩

/-- The inner modifier loop of the randomizer
(`YABQOLA/operators/noise_randomizer.py`, lines 77-82): randomize each noise
modifier of the stack in order, consuming four `random.uniform` draws each
(`k` indexes the draw stream).  Returns the new stack and the next draw
index. -/
def randomizeModList (s : NoiseSettings) (rand : Nat → ℚ) :
    List NoiseModifier → Nat → List NoiseModifier × Nat
  | [], k => ([], k)
  | m :: rest, k =>
    if m.type == "NOISE" then
      let m2 := randomizeNoiseModifier s (fun i => rand (k + i.val)) m
      let r := randomizeModList s rand rest (k + 4)
      (m2 :: r.1, r.2)
    else
      let r := randomizeModList s rand rest k
      (m :: r.1, r.2)

/-- The per-curve body of the randomizer loop
(`YABQOLA/operators/noise_randomizer.py`, lines 64-82): create a noise
modifier when the stack has none and creation is enabled (initializing its
strength to the normalized maximum and its scale to the clamped normalized
minimum), skip the curve when it still has no noise modifier, otherwise
randomize every noise modifier.  Returns the new curve, the next draw index,
the created count and the affected count. -/
def randomizeCurve (s : NoiseSettings) (rand : Nat → ℚ) (k : Nat)
    (fc : FCurve) : FCurve × Nat × Nat × Nat :=
  let noiseMods := fc.modifiers.filter (fun m => m.type == "NOISE")
  let stack :=
    if noiseMods = [] ∧ s.noise_create_missing then
      fc.modifiers ++ [{ hostNewNoiseModifier with
        strength := (sorted_range s.noise_strength_min s.noise_strength_max).2
        scale := max (1 / 1000)
          (sorted_range s.noise_scale_min s.noise_scale_max).1 }]
    else fc.modifiers
  let created := if noiseMods = [] ∧ s.noise_create_missing then 1 else 0
  let noiseCount := (stack.filter (fun m => m.type == "NOISE")).length
  if noiseCount = 0 then (fc, k, 0, 0)
  else
    let r := randomizeModList s rand stack k
    ({ fc with modifiers := r.1 }, r.2, created, noiseCount)

/-- The curve loop of the randomizer, threading the draw index and summing
the created/affected counters. -/
def noisePlan (s : NoiseSettings) (rand : Nat → ℚ) :
    List FCurve → Nat → List ((Nat × String × Int) × FCurve) × Nat × Nat
  | [], _ => ([], 0, 0)
  | fc :: rest, k =>
    let r1 := randomizeCurve s rand k fc
    let r := noisePlan s rand rest r1.2.1
    ((fcurveKey fc, r1.1) :: r.1, r1.2.2.1 + r.2.1, r1.2.2.2 + r.2.2)

/-- Embeds `ANIMATIONQOL_OT_randomize_noise_modifiers.execute`
(`YABQOLA/operators/noise_randomizer.py`, lines 32-92): abort on missing
settings or when no curve is gathered; randomize the gathered curves
(`random.seed` touches only interpreter RNG state, not the document); abort
when nothing was randomized. -/
def noiseExecute (settings : Option NoiseSettings)
    (include_only_selected_curves : Bool) (ctx : GatherCtx) (rand : Nat → ℚ) :
    OpResult × GatherCtx × List Report :=
  match settings with
  | none => (.cancelled, ctx, [⟨.error, "YABQOLA settings missing on the scene."⟩])
  | some s =>
    let fcurves := gather_target_fcurves ctx include_only_selected_curves true
    if fcurves = [] then
      (.cancelled, ctx, [⟨.warning, "No F-Curves found to update."⟩])
    else
      let plan := noisePlan s rand fcurves 0
      let ctx2 := mapCtxCurves ctx
        (fun fc => (plan.1.lookup (fcurveKey fc)).getD fc)
      if plan.2.2 = 0 then
        (.cancelled, ctx2,
          [⟨.warning, "Nothing to randomize. Add noise modifiers first."⟩])
      else (.finished, ctx2, [⟨.info, "randomized"⟩])

/-- The context fields `ANIMATIONQOL_OT_quick_snap.invoke` checks
(`operators/quick_snap.py`, lines 56-71). -/
structure SnapInvokeCtx where
  area_is_view3d : Bool
  region_is_window : Bool
  mode : String
  has_selected_objects : Bool
  has_selected_vertices : Bool
  deriving DecidableEq, Repr

/-- Embeds `ANIMATIONQOL_OT_quick_snap.invoke` (`operators/quick_snap.py`,
lines 56-78): five guards, each reporting a warning and cancelling before
any state is touched; on success the modal state is reset to awaiting the
source pick and the handler is installed. -/
def quick_snap_invoke (ctx : SnapInvokeCtx) (scene : SnapScene) :
    ModalResult × Option SnapStage × SnapScene × List Report :=
  if !ctx.area_is_view3d then
    (.cancelled, none, scene,
      [⟨.warning, "Quick Snap must be started from a 3D Viewport."⟩])
  else if !ctx.region_is_window then
    (.cancelled, none, scene,
      [⟨.warning, "Invoke Quick Snap from the main viewport region."⟩])
  else if ctx.mode ≠ "OBJECT" ∧ ctx.mode ≠ "EDIT_MESH" then
    (.cancelled, none, scene,
      [⟨.warning, "Quick Snap currently supports Object and Mesh Edit modes."⟩])
  else if ctx.mode = "OBJECT" ∧ ¬ctx.has_selected_objects then
    (.cancelled, none, scene,
      [⟨.warning, "Select at least one object before running Quick Snap."⟩])
  else if ctx.mode = "EDIT_MESH" ∧ ¬ctx.has_selected_vertices then
    (.cancelled, none, scene,
      [⟨.warning, "Select vertices to move before running Quick Snap."⟩])
  else (.runningModal, some snap_invoke_state, scene, [])

/-- A shape-key block as the blink generator uses it: its name, current
value and the keyframes on its `value` channel as `(frame, value)` pairs. -/
structure ShapeKeyBlock where
  name : String
  value : ℚ
  keys : List (Int × ℚ)
  deriving DecidableEq, Repr

/-- An object as the blink generator sees it: selection state and its
shape-key blocks (`none` when `obj.data` has no shape keys). -/
structure BlinkObject where
  name : String
  selected : Bool
  shape_key_blocks : Option (List ShapeKeyBlock)
  deriving DecidableEq, Repr

/-- The auto-blink fields of `AnimationQOLSceneSettings` (read by
`operators/auto_blink.py`; their declarations are referenced by the UI
panel). -/
structure BlinkSettings where
  blink_shape_key_name : String
  blink_strength : ℚ
  blink_use_selected_objects : Bool
  blink_frame_start : Int
  blink_frame_end : Int
  blink_interval : Int
  blink_interval_random : Int
  blink_close_frames : Int
  blink_open_frames : Int
  blink_hold_frames : Int
  blink_seed : Int
  deriving DecidableEq, Repr

/-- Model of Python's `str.strip()`: drop leading and trailing whitespace. -/
def pyStrip (s : String) : String :=
  ⟨((s.data.dropWhile Char.isWhitespace).reverse.dropWhile
      Char.isWhitespace).reverse⟩

/-- Embeds `_insert_keyframe` (`operators/auto_blink.py`, lines 21-23): set the
block value and keyframe it; the host's `keyframe_insert` replaces any key
at the same frame. -/
def insert_blink_keyframe (b : ShapeKeyBlock) (value : ℚ) (frame : Int) :
    ShapeKeyBlock :=
  { b with
      value := value
      keys := b.keys.filter (fun p => p.1 ≠ frame) ++ [(frame, value)] }

/-- Whether an object is a blink target
(`_iter_target_objects`, `operators/auto_blink.py`, lines 15-18). -/
def isBlinkTarget (use_selected : Bool) (o : BlinkObject) : Bool :=
  o.shape_key_blocks.isSome && (!use_selected || o.selected)

/-- The per-object body of the blink loop (`operators/auto_blink.py`,
lines 68-102): find the named key block (recording a missing name), insert
the two baseline keyframes, then run the blink `while` loop (whose fuel is
sufficient by `blinkLoop_isSome`) and apply its inserts.  Returns the new
object, the next draw index, whether blinks were generated, and the missing
name if any. -/
def blinkProcessObject (s : BlinkSettings) (rnd : Nat → Int)
    (frame_start frame_end interval randomness close_frames open_frames
      hold_frames : Int) (k : Nat) (obj : BlinkObject) :
    BlinkObject × Nat × Bool × Option String :=
  match obj.shape_key_blocks with
  | none => (obj, k, false, none)
  | some blocks =>
    match blocks.find? (fun b => b.name == s.blink_shape_key_name) with
    | none => (obj, k, false, some obj.name)
    | some block =>
      let block1 := insert_blink_keyframe block 0 frame_start
      let block2 := insert_blink_keyframe block1 0 (frame_end + 1)
      let fuel := (frame_end - frame_start).toNat + 1
      let lr := (blinkLoop frame_end close_frames hold_frames open_frames
        interval randomness s.blink_strength rnd frame_start
        fuel frame_start k []).getD ([], k)
      let block3 := lr.1.foldl (fun b p => insert_blink_keyframe b p.2 p.1) block2
      let obj2 := { obj with
        shape_key_blocks := some (blocks.map (fun b =>
          if b.name == s.blink_shape_key_name then block3 else b)) }
      (obj2, lr.2, decide (k < lr.2), none)

/-- The object loop of `execute`, threading the draw index and collecting
the processed count and missing names. -/
def blinkProcessObjects (s : BlinkSettings) (rnd : Nat → Int)
    (frame_start frame_end interval randomness close_frames open_frames
      hold_frames : Int) (use_selected : Bool) :
    List BlinkObject → Nat → List BlinkObject × Nat × List String
  | [], _ => ([], 0, [])
  | obj :: rest, k =>
    if isBlinkTarget use_selected obj then
      let r1 := blinkProcessObject s rnd frame_start frame_end interval
        randomness close_frames open_frames hold_frames k obj
      let r := blinkProcessObjects s rnd frame_start frame_end interval
        randomness close_frames open_frames hold_frames use_selected rest r1.2.1
      (r1.1 :: r.1, (if r1.2.2.1 then 1 else 0) + r.2.1,
        (match r1.2.2.2 with
         | some nm => [nm]
         | none => []) ++ r.2.2)
    else
      let r := blinkProcessObjects s rnd frame_start frame_end interval
        randomness close_frames open_frames hold_frames use_selected rest k
      (obj :: r.1, r.2.1, r.2.2)

/-- Embeds `ANIMATIONQOL_OT_generate_auto_blinks.execute`
(`operators/auto_blink.py`, lines 34-123): abort on missing settings, no
targets, or an empty shape-key name; process each target object (baseline
keys, then the blink loop); when no object got blinks, report a warning —
naming missing shape keys when there were any — and cancel. -/
def autoBlinkExecute (settings : Option BlinkSettings)
    (objects : List BlinkObject) (rnd : Nat → Int) :
    OpResult × List BlinkObject × List Report :=
  match settings with
  | none =>
    (.cancelled, objects,
      [⟨.warning, "Animation QoL settings unavailable on this scene."⟩])
  | some s =>
    let frame_start := min s.blink_frame_start s.blink_frame_end
    let frame_end := max s.blink_frame_start s.blink_frame_end
    let interval := max 1 s.blink_interval
    let randomness := max 0 s.blink_interval_random
    let close_frames := max 1 s.blink_close_frames
    let open_frames := max 1 s.blink_open_frames
    let hold_frames := max 0 s.blink_hold_frames
    if objects.filter (isBlinkTarget s.blink_use_selected_objects) = [] then
      (.cancelled, objects,
        [⟨.info, "No objects with shape keys were found for blink generation."⟩])
    else if pyStrip s.blink_shape_key_name = "" then
      (.cancelled, objects, [⟨.warning, "Shape key name is empty."⟩])
    else
      let r := blinkProcessObjects s rnd frame_start frame_end interval
        randomness close_frames open_frames hold_frames
        s.blink_use_selected_objects objects 0
      if r.2.1 = 0 then
        if r.2.2 ≠ [] then
          (.cancelled, r.1,
            [⟨.warning,
              "No blinks created. Missing shape key on: " ++
                String.intercalate ", " (r.2.2.take 5)⟩])
        else
          (.cancelled, r.1,
            [⟨.warning, "No blinks were generated within the provided frame range."⟩])
      else (.finished, r.1, [⟨.info, "generated"⟩])

theorem quick_snap_invoke_scene_unchanged (ictx : SnapInvokeCtx)
    (scene : SnapScene) : (quick_snap_invoke ictx scene).2.2.1 = scene := by
  unfold quick_snap_invoke
  repeat first | rfl | split

theorem quick_snap_invoke_cancel_reports (ictx : SnapInvokeCtx)
    (scene : SnapScene)
    (h : (quick_snap_invoke ictx scene).1 = ModalResult.cancelled) :
    (quick_snap_invoke ictx scene).2.2.2 ≠ [] ∧
      (quick_snap_invoke ictx scene).2.1 = none := by
  revert h
  unfold quick_snap_invoke
  split
  · exact fun _ => ⟨by simp, rfl⟩
  split
  · exact fun _ => ⟨by simp, rfl⟩
  split
  · exact fun _ => ⟨by simp, rfl⟩
  split
  · exact fun _ => ⟨by simp, rfl⟩
  split
  · exact fun _ => ⟨by simp, rfl⟩
  · intro h
    cases h

/-- Claim C2 counterexample: The claim fails on Generate Auto Blinks: with a
shape-key named "Blink" on object A, no such key on object B, and a frame
range (1..2) too short for any blink, the operator reports a warning naming
the missing target and returns CANCELLED — a no-targets-style precondition
failure — yet the document has been mutated: A's two baseline keyframes at
frames 1 and 3 were already inserted and remain. -/
theorem precondition_failure_side_effect_counterexample :
    autoBlinkExecute (some ⟨"Blink", 1, true, 1, 2, 1, 0, 1, 1, 0, 1⟩)
        [⟨"A", true, some [⟨"Blink", 0, []⟩]⟩,
         ⟨"B", true, some [⟨"Basis", 0, []⟩]⟩] (fun _ => 0) =
      (.cancelled,
        [⟨"A", true, some [⟨"Blink", 0, [(1, 0), (3, 0)]⟩]⟩,
         ⟨"B", true, some [⟨"Basis", 0, []⟩]⟩],
        [⟨.warning, "No blinks created. Missing shape key on: B"⟩]) ∧
    [(⟨"A", true, some [⟨"Blink", 0, [(1, 0), (3, 0)]⟩]⟩ : BlinkObject),
     ⟨"B", true, some [⟨"Basis", 0, []⟩]⟩] ≠
      [⟨"A", true, some [⟨"Blink", 0, []⟩]⟩,
       ⟨"B", true, some [⟨"Basis", 0, []⟩]⟩] := by
  constructor
  · rfl
  · simp

/-- Claim C2 amended: When a precondition of the listed kinds fails —
settings record missing, no target curves/objects found, or a zero
configured value — each modeled operator reports a warning or error and
returns CANCELLED with the document exactly unchanged, except that Generate
Auto Blinks may retain mutations already completed before the failure was
detected (the counterexample above); its own pre-mutation precondition
paths (missing settings, no targets, empty shape-key name) are also
side-effect free. -/
theorem precondition_failures_cancel (props : OffsetProps) (ctx : GatherCtx)
    (s : OffsetSettings) (st : StaggerSettings) (sprops : StaggerProps)
    (sctx : StaggerCtx) (ns : NoiseSettings) (onlySel : Bool) (rand : Nat → ℚ)
    (ictx : SnapInvokeCtx) (scene : SnapScene) (bs : BlinkSettings)
    (objs : List BlinkObject) (rnd : Nat → Int) :
    offsetExecute none props ctx =
      (.cancelled, ctx, [⟨.error, "YABQOLA settings missing on the scene."⟩]) ∧
    offsetExecuteSimple none props ctx =
      (.cancelled, ctx, [⟨.error, "YABQOLA settings missing on the scene."⟩]) ∧
    staggerExecute none sprops sctx =
      (.cancelled, (staggerBonesOf sctx, staggerObjectsOf sctx),
        [⟨.error, "YABQOLA settings missing on the scene."⟩]) ∧
    noiseExecute none onlySel ctx rand =
      (.cancelled, ctx, [⟨.error, "YABQOLA settings missing on the scene."⟩]) ∧
    autoBlinkExecute none objs rnd =
      (.cancelled, objs,
        [⟨.warning, "Animation QoL settings unavailable on this scene."⟩]) ∧
    ((if props.use_scene_settings then s.keyframe_frame_offset
        else props.frame_delta) = 0 →
      offsetExecute (some s) props ctx =
        (.cancelled, ctx, [⟨.warning, "Frame offset is zero; nothing to do."⟩]) ∧
      offsetExecuteSimple (some s) props ctx =
        (.cancelled, ctx, [⟨.warning, "Frame offset is zero; nothing to do."⟩])) ∧
    ((if sprops.use_scene_settings then st.stagger_step else sprops.step) = 0 →
      staggerExecute (some st) sprops sctx =
        (.cancelled, (staggerBonesOf sctx, staggerObjectsOf sctx),
          [⟨.warning, "Stagger step is zero; adjust the step value to offset timing."⟩])) ∧
    (gather_target_fcurves ctx true true = [] →
      gather_target_fcurves ctx false true = [] →
      (if props.use_scene_settings then s.keyframe_frame_offset
        else props.frame_delta) ≠ 0 →
      offsetExecute (some s) props ctx =
        (.cancelled, ctx, [⟨.warning, "No animation curves available for offset."⟩]) ∧
      offsetExecuteSimple (some s) props ctx =
        (.cancelled, ctx, [⟨.warning, "No animation curves available for offset."⟩])) ∧
    (gather_target_fcurves ctx onlySel true = [] →
      noiseExecute (some ns) onlySel ctx rand =
        (.cancelled, ctx, [⟨.warning, "No F-Curves found to update."⟩])) ∧
    (objs.filter (isBlinkTarget bs.blink_use_selected_objects) = [] →
      autoBlinkExecute (some bs) objs rnd =
        (.cancelled, objs,
          [⟨.info, "No objects with shape keys were found for blink generation."⟩])) ∧
    (objs.filter (isBlinkTarget bs.blink_use_selected_objects) ≠ [] →
      pyStrip bs.blink_shape_key_name = "" →
      autoBlinkExecute (some bs) objs rnd =
        (.cancelled, objs, [⟨.warning, "Shape key name is empty."⟩])) ∧
    ((quick_snap_invoke ictx scene).2.2.1 = scene ∧
      ((quick_snap_invoke ictx scene).1 = ModalResult.cancelled →
        (quick_snap_invoke ictx scene).2.2.2 ≠ [] ∧
        (quick_snap_invoke ictx scene).2.1 = none)) := by
  refine ⟨rfl, rfl, rfl, rfl, rfl, ?_, ?_, ?_, ?_, ?_, ?_,
    quick_snap_invoke_scene_unchanged ictx scene,
    quick_snap_invoke_cancel_reports ictx scene⟩
  · intro hz
    exact ⟨by simp only [offsetExecute, hz, if_pos],
      by simp only [offsetExecuteSimple, hz, if_pos]⟩
  · intro hz
    simp only [staggerExecute, hz, if_pos]
  · intro h1 h2 hne
    constructor
    · simp only [offsetExecute, h1, h2]
      rw [if_neg hne]
      simp
    · simp only [offsetExecuteSimple, h1, h2]
      rw [if_neg hne]
      simp
  · intro hg
    simp only [noiseExecute, hg, if_pos]
  · intro hf
    simp only [autoBlinkExecute, hf, if_pos]
  · intro hf ht
    simp only [autoBlinkExecute, ht]
    rw [if_neg (by simpa using hf)]
    simp

/-- Witness for the amended C2 on concrete inputs: an empty context and a
non-3D-viewport invoke context; every listed precondition path cancels,
reports, and leaves the document unchanged. -/
theorem precondition_failures_cancel_witness :
    offsetExecute none ⟨2, true, false, "UNIFORM"⟩ ⟨[], [], none⟩ =
      (.cancelled, ⟨[], [], none⟩,
        [⟨.error, "YABQOLA settings missing on the scene."⟩]) ∧
    ((if (true : Bool) then (0 : Int) else 2) = 0 ∧
      offsetExecute (some ⟨0, true, "UNIFORM"⟩) ⟨2, true, false, "UNIFORM"⟩
          ⟨[], [], none⟩ =
        (.cancelled, ⟨[], [], none⟩,
          [⟨.warning, "Frame offset is zero; nothing to do."⟩])) ∧
    (gather_target_fcurves ⟨[], [], none⟩ true true = [] ∧
      noiseExecute (some ⟨0, 1, 0, 1, 0, 1, 3, 18, 0, true⟩) true
          ⟨[], [], none⟩ (fun _ => 0) =
        (.cancelled, ⟨[], [], none⟩,
          [⟨.warning, "No F-Curves found to update."⟩])) ∧
    ((quick_snap_invoke ⟨false, true, "OBJECT", true, true⟩ ⟨⟨0, 0, 0⟩⟩).1 =
        ModalResult.cancelled →
      (quick_snap_invoke ⟨false, true, "OBJECT", true, true⟩ ⟨⟨0, 0, 0⟩⟩).2.2.1 =
        ⟨⟨0, 0, 0⟩⟩) := by
  have h := precondition_failures_cancel ⟨2, true, false, "UNIFORM"⟩ ⟨[], [], none⟩
    ⟨0, true, "UNIFORM"⟩ ⟨0, true, false, true⟩ ⟨3, true, true, false, true⟩
    ⟨[], none, [], none⟩ ⟨0, 1, 0, 1, 0, 1, 3, 18, 0, true⟩ true (fun _ => 0)
    ⟨false, true, "OBJECT", true, true⟩ ⟨⟨0, 0, 0⟩⟩
    ⟨"Blink", 1, true, 1, 2, 1, 0, 1, 1, 0, 1⟩ [] (fun _ => 0)
  refine ⟨h.1, ⟨rfl, (h.2.2.2.2.2.1 rfl).1⟩, ⟨rfl, h.2.2.2.2.2.2.2.2.1 rfl⟩, ?_⟩
  intro hc
  exact h.2.2.2.2.2.2.2.2.2.2.2.1

end YABQOLA
